import Mathlib

/-!
Verification of the security core of the `Project-5-SDES` secure data vault
(`app.py`): symmetric encryption/decryption wrappers, passkey hashing,
per-user retrieval attempt limiting, and the vault record model with its
store/retrieve operations.  Pure Python functions are embedded as Lean
functions; the external libraries the code calls (`cryptography.fernet`,
`hashlib`, `json`) are modelled from their documented behaviour as stated
in the specification; the file system is passed as explicit state.
-/

namespace SDES

/-- `MAX_ATTEMPTS = 3` from the configuration section of `app.py`. -/
def MAX_ATTEMPTS : Nat := 3

/-! ## Cipher model (Fernet) -/

/-- Modelled from the spec: a Fernet ciphertext.  `cryptography.fernet` is an
external library, absent from the source; the spec requires that decryption
succeeds exactly on tokens produced under the same key (round-trip), that a
nonce may be embedded (non-deterministic encryption), and that anything else
(wrong key, tampered or malformed input) is a detected failure. -/
inductive CipherText where
  | token (key : Nat) (nonce : Nat) (payload : String)
  | malformed (raw : String)
deriving DecidableEq, Repr

/-- `encrypt_data` from `app.py`: encrypts text under the process key.  The
`nonce` argument models Fernet's embedded timestamp/IV, which makes
ciphertexts of equal plaintexts differ between calls. -/
def encrypt_data (key : Nat) (nonce : Nat) (text : String) : CipherText :=
  CipherText.token key nonce text

/-- `decrypt_data` from `app.py`: attempts decryption under the process key
and converts any failure into `none` (the Python code wraps
`cipher_suite.decrypt` in `try/except` and returns `None` on failure). -/
def decrypt_data (key : Nat) : CipherText → Option String
  | CipherText.token k _ payload => if k = key then some payload else none
  | CipherText.malformed _ => none

/-! ## Passkey hashing -/

/-- Hexadecimal digit characters for rendering digests. -/
def hexDigitChar (n : Nat) : Char :=
  if n < 10 then Char.ofNat (48 + n) else Char.ofNat (87 + n)

/-- Renders the low `d` hexadecimal digits of `n`, most significant first. -/
def hexChars : Nat → Nat → List Char
  | 0, _ => []
  | d + 1, n => hexChars d (n / 16) ++ [hexDigitChar (n % 16)]

/-- Modelled from the spec: the numeric value of the SHA-256 digest.
`hashlib` is an external library, absent from the source; the spec requires
only a deterministic, one-way, fixed-length digest, so the model folds the
characters into a 256-bit accumulator. -/
def hashNat (p : String) : Nat :=
  p.data.foldl (fun a c => (a * 257 + c.toNat + 1) % (2 ^ 256)) 7

/-- `hash_passkey` from `app.py`: the hex digest of the SHA-256 hash of the
passkey, a 64-character hexadecimal string. -/
def hash_passkey (p : String) : String :=
  String.mk (hexChars 64 (hashNat p))

/-! ## Key store -/

/-- `generate_key` from `app.py`: creates fresh key material, writes it to
the key file and returns it.  `fresh` models the random key produced by
`Fernet.generate_key()`; the key-file contents are threaded explicitly. -/
def generate_key (fresh : Nat) (_keyFile : Option Nat) : Nat × Option Nat :=
  (fresh, some fresh)

/-- `load_key` from `app.py`: returns the persisted key if the key file
exists, otherwise generates and persists a new one.  Returns the key
together with the resulting key-file contents. -/
def load_key (fresh : Nat) : Option Nat → Nat × Option Nat
  | some k => (k, some k)
  | none => generate_key fresh none

/-! ## Data persistence -/

/-- A stored vault item: `{"encrypted_text": ..., "passkey_hash": ...}`. -/
structure StoredItem where
  encrypted_text : CipherText
  passkey_hash : String
deriving DecidableEq, Repr

/-- A user's collection: insertion-ordered mapping from data id to item,
as a Python `dict`. -/
abbrev UserItems := List (String × StoredItem)

/-- The whole vault: insertion-ordered mapping from username to collection,
as the top-level Python `dict` in `data.json`. -/
abbrev Vault := List (String × UserItems)

/-- Lookup in an insertion-ordered dictionary (Python `d.get(k)`). -/
def dictGet {α : Type} (k : String) : List (String × α) → Option α
  | [] => none
  | (k', v) :: rest => if k' = k then some v else dictGet k rest

/-- Update in an insertion-ordered dictionary (Python `d[k] = v`): replaces
the value in place when the key is present, appends otherwise. -/
def dictInsert {α : Type} (k : String) (v : α) : List (String × α) → List (String × α)
  | [] => [(k, v)]
  | (k', v') :: rest =>
    if k' = k then (k, v) :: rest else (k', v') :: dictInsert k v rest

/-- Modelled from the spec: the observable state of the data file as seen by
`load_data`.  `json.loads` is an external library call, so its outcome is
represented by whether the text parses (`readable v`) or not (`malformed`). -/
inductive DataFileState where
  | absent
  | empty
  | readable (v : Vault)
  | malformed

/-- `load_data` from `app.py`: returns the parsed vault, or the empty vault
when the file is absent or empty, or the empty vault together with a warning
flag (`st.error`) when the file fails to parse.  It never raises. -/
def load_data : DataFileState → Vault × Bool
  | DataFileState.absent => ([], false)
  | DataFileState.empty => ([], false)
  | DataFileState.readable v => (v, false)
  | DataFileState.malformed => ([], true)

/-! ## Attempt guard -/

/-- Per-user attempt state `{'attempts': count, 'locked': bool}` kept in
`st.session_state.login_attempts`. -/
structure AttemptState where
  attempts : Nat
  locked : Bool
deriving DecidableEq, Repr

/-- The login submit handler in `render_login`: initializes the state for a
new username and resets `locked`/`attempts` for a known one. -/
def loginReset : Option AttemptState → AttemptState
  | none => { attempts := 0, locked := false }
  | some s => { s with locked := false, attempts := 0 }

/-- The lock check at the top of `render_retrieve`: the retrieval form is
rendered only when the user is not locked. -/
def retrieveAllowed (s : AttemptState) : Bool :=
  ! s.locked

/-- The attempt-count reset in `navigate_to`: navigating to any page other
than `"Retrieve"` resets `attempts` only, leaving `locked` unchanged. -/
def navigate_to (page : String) (s : AttemptState) : AttemptState :=
  if page ≠ "Retrieve" then { s with attempts := 0 } else s

/-- The outcome of scanning a user's items in `render_retrieve`. -/
inductive RetrieveOutcome where
  | decrypted (text : String)
  | decryptFailed
  | noMatch
deriving DecidableEq, Repr

/-- The scan loop in `render_retrieve`: walks the user's items in insertion
order, and at the first item whose `passkey_hash` equals the hash of the
supplied passkey either decrypts it or reports a decryption failure,
breaking out of the loop in both cases. -/
def scanUserItems (key : Nat) (hpk : String) : List (String × StoredItem) → RetrieveOutcome
  | [] => RetrieveOutcome.noMatch
  | (_, item) :: rest =>
    if item.passkey_hash = hpk then
      match decrypt_data key item.encrypted_text with
      | some t => RetrieveOutcome.decrypted t
      | none => RetrieveOutcome.decryptFailed
    else scanUserItems key hpk rest

/-- The attempt-state update after a retrieval submission in
`render_retrieve`: success resets `attempts`; a hash match with failed
decryption leaves the state unchanged; no match increments `attempts` and
locks the user when the count reaches `MAX_ATTEMPTS`. -/
def retrieveStep (s : AttemptState) : RetrieveOutcome → AttemptState
  | RetrieveOutcome.decrypted _ => { s with attempts := 0 }
  | RetrieveOutcome.decryptFailed => s
  | RetrieveOutcome.noMatch =>
    let a := s.attempts + 1
    { attempts := a, locked := if MAX_ATTEMPTS ≤ a then true else s.locked }

/-- A whole retrieval submission with a non-empty passkey: hash the passkey,
scan the user's items, update the attempt state. -/
def retrieveSubmit (key : Nat) (items : List (String × StoredItem)) (passkey : String)
    (s : AttemptState) : AttemptState :=
  retrieveStep s (scanUserItems key (hash_passkey passkey) items)

/-! ## Storing data -/

/-- The store submit handler in `render_store`: with non-empty text and
passkey (Python truthiness of the two strings), hashes the passkey, encrypts
the text, ensures the user's collection exists, assigns the id
`"data_" + str(len(items) + 1)` and inserts the new record; otherwise the
vault is left unchanged and nothing is saved. -/
def render_store (key : Nat) (nonce : Nat) (vault : Vault) (user text pk : String) : Vault :=
  if text ≠ "" ∧ pk ≠ "" then
    let userItems := (dictGet user vault).getD []
    let data_id := "data_" ++ toString (userItems.length + 1)
    let item : StoredItem :=
      { encrypted_text := encrypt_data key nonce text, passkey_hash := hash_passkey pk }
    dictInsert user (dictInsert data_id item userItems) vault
  else vault

/-- A concrete two-user vault used to exercise the store operation. -/
def sampleVault : Vault :=
  [("alice", [("data_1", ⟨CipherText.token 0 0 "x", hash_passkey "a"⟩)]),
   ("bob", [("data_1", ⟨CipherText.token 0 1 "y", hash_passkey "b"⟩)])]

/-! ## Helper lemmas -/

/-- Unfolding of `render_store` in the non-empty case. -/
theorem render_store_eq (key nonce : Nat) (vault : Vault) (user text pk : String)
    (htext : text ≠ "") (hpk : pk ≠ "") :
    render_store key nonce vault user text pk =
      dictInsert user
        (dictInsert ("data_" ++ toString (((dictGet user vault).getD []).length + 1))
          { encrypted_text := encrypt_data key nonce text, passkey_hash := hash_passkey pk }
          ((dictGet user vault).getD [])) vault := by
  rw [render_store, if_pos ⟨htext, hpk⟩]

/-- `hexChars` always renders exactly `d` characters. -/
theorem hexChars_length (d : Nat) : ∀ n, (hexChars d n).length = d := by
  induction d with
  | zero => intro n; rfl
  | succ d ih =>
    intro n
    simp [hexChars, ih]

/-- Reading back the key just updated (`d[k] = v; d.get(k)`). -/
theorem dictGet_insert_self {α : Type} (k : String) (v : α) :
    ∀ l : List (String × α), dictGet k (dictInsert k v l) = some v := by
  intro l
  induction l with
  | nil => simp [dictInsert, dictGet]
  | cons hd tl ih =>
    obtain ⟨k', v'⟩ := hd
    by_cases h : k' = k
    · simp [dictInsert, dictGet, h]
    · simp [dictInsert, dictGet, h, ih]

/-- Updating one key leaves every other key's binding unchanged. -/
theorem dictGet_insert_other {α : Type} (u k : String) (v : α) (h : u ≠ k) :
    ∀ l : List (String × α), dictGet u (dictInsert k v l) = dictGet u l := by
  have hku : ¬ k = u := fun e => h e.symm
  intro l
  induction l with
  | nil => simp [dictInsert, dictGet, hku]
  | cons hd tl ih =>
    obtain ⟨k', v'⟩ := hd
    by_cases hk : k' = k
    · subst hk
      simp [dictInsert, dictGet, hku]
    · simp [dictInsert, dictGet, hk, ih]

/-- Inserting a key not yet present appends the binding at the end,
preserving every existing binding in place. -/
theorem dictInsert_fresh {α : Type} (k : String) (v : α) :
    ∀ l : List (String × α), k ∉ l.map Prod.fst → dictInsert k v l = l ++ [(k, v)] := by
  intro l
  induction l with
  | nil => intro _; rfl
  | cons hd tl ih =>
    intro hfresh
    obtain ⟨k', v'⟩ := hd
    simp only [List.map_cons, List.mem_cons] at hfresh
    push_neg at hfresh
    have hne : ¬ k' = k := fun e => hfresh.1 e.symm
    simp [dictInsert, hne, ih hfresh.2]

/-! ## Claim theorems -/

/-- C1: for every plaintext `P`, decrypting the result of encrypting `P`
under the process's single key returns `P` (round-trip correctness), for
every nonce Fernet may embed. -/
theorem decrypt_encrypt_roundtrip (key nonce : Nat) (p : String) :
    decrypt_data key (encrypt_data key nonce p) = some p := by
  simp [encrypt_data, decrypt_data]

/-- C2: starting from `Unlocked(0)` (`{'attempts': 0, 'locked': False}`),
three consecutive retrieval submissions whose passkey hash matches no stored
item leave the user locked; the retrieval form is then refused; and a
subsequent login resets the state to `Unlocked(0)`. -/
theorem attempt_guard_lockout (key : Nat) (items : UserItems) (p1 p2 p3 : String)
    (h1 : scanUserItems key (hash_passkey p1) items = RetrieveOutcome.noMatch)
    (h2 : scanUserItems key (hash_passkey p2) items = RetrieveOutcome.noMatch)
    (h3 : scanUserItems key (hash_passkey p3) items = RetrieveOutcome.noMatch) :
    (retrieveSubmit key items p3 (retrieveSubmit key items p2
        (retrieveSubmit key items p1 ⟨0, false⟩))).locked = true ∧
    retrieveAllowed (retrieveSubmit key items p3 (retrieveSubmit key items p2
        (retrieveSubmit key items p1 ⟨0, false⟩))) = false ∧
    loginReset (some (retrieveSubmit key items p3 (retrieveSubmit key items p2
        (retrieveSubmit key items p1 ⟨0, false⟩)))) = ⟨0, false⟩ := by
  simp [retrieveSubmit, h1, h2, h3, retrieveStep, retrieveAllowed, loginReset, MAX_ATTEMPTS]

/-- C2 witness: a user holding one item stored under passkey `"a"` submits
the wrong passkey `"b"` three times and is locked; the form is refused;
login resets the state. -/
theorem attempt_guard_lockout_witness :
    (retrieveSubmit 0 [("data_1", ⟨CipherText.token 0 0 "x", hash_passkey "a"⟩)] "b"
      (retrieveSubmit 0 [("data_1", ⟨CipherText.token 0 0 "x", hash_passkey "a"⟩)] "b"
        (retrieveSubmit 0 [("data_1", ⟨CipherText.token 0 0 "x", hash_passkey "a"⟩)] "b"
          ⟨0, false⟩))).locked = true ∧
    retrieveAllowed
      (retrieveSubmit 0 [("data_1", ⟨CipherText.token 0 0 "x", hash_passkey "a"⟩)] "b"
        (retrieveSubmit 0 [("data_1", ⟨CipherText.token 0 0 "x", hash_passkey "a"⟩)] "b"
          (retrieveSubmit 0 [("data_1", ⟨CipherText.token 0 0 "x", hash_passkey "a"⟩)] "b"
            ⟨0, false⟩))) = false ∧
    loginReset
      (some (retrieveSubmit 0 [("data_1", ⟨CipherText.token 0 0 "x", hash_passkey "a"⟩)] "b"
        (retrieveSubmit 0 [("data_1", ⟨CipherText.token 0 0 "x", hash_passkey "a"⟩)] "b"
          (retrieveSubmit 0 [("data_1", ⟨CipherText.token 0 0 "x", hash_passkey "a"⟩)] "b"
            ⟨0, false⟩)))) = ⟨0, false⟩ :=
  attempt_guard_lockout 0 [("data_1", ⟨CipherText.token 0 0 "x", hash_passkey "a"⟩)]
    "b" "b" "b" (by decide) (by decide) (by decide)

/-- C3: `decrypt_data` is a total function into `Option String` (the
`try/except` boundary converts every failure into `None`): a malformed
ciphertext yields `none`, a token under a different key yields `none`, and
whenever it returns a plaintext the input really was an encryption of that
plaintext under the same key — never silently-wrong plaintext. -/
theorem decrypt_failure_signalling (key : Nat) :
    (∀ raw, decrypt_data key (CipherText.malformed raw) = none) ∧
    (∀ k n p, k ≠ key → decrypt_data key (CipherText.token k n p) = none) ∧
    (∀ ct p, decrypt_data key ct = some p → ∃ nonce, ct = encrypt_data key nonce p) := by
  refine ⟨fun raw => rfl, fun k n p hk => by simp [decrypt_data, hk], ?_⟩
  intro ct p hct
  cases ct with
  | token k n payload =>
    by_cases hk : k = key
    · subst hk
      simp [decrypt_data] at hct
      exact ⟨n, by simp [encrypt_data, hct]⟩
    · simp [decrypt_data, hk] at hct
  | malformed raw => simp [decrypt_data] at hct

/-- C3 witness: a malformed blob and a wrong-key token decrypt to `none`,
and a successful decryption of `"hi"` pins the ciphertext down as an
encryption of `"hi"` under the same key. -/
theorem decrypt_failure_signalling_witness :
    decrypt_data 0 (CipherText.malformed "xx") = none ∧
    decrypt_data 0 (CipherText.token 1 0 "p") = none ∧
    (∃ nonce, CipherText.token 0 5 "hi" = encrypt_data 0 nonce "hi") :=
  ⟨(decrypt_failure_signalling 0).1 "xx",
   (decrypt_failure_signalling 0).2.1 1 0 "p" (by decide),
   (decrypt_failure_signalling 0).2.2 (CipherText.token 0 5 "hi") "hi" (by decide)⟩

/-- C4: when the supplied passkey's hash matches a stored item but that
item's ciphertext fails to decrypt, the retrieval submission leaves the
attempt state unchanged — in particular `failedAttempts` is not
incremented. -/
theorem match_decrypt_failed_no_increment (key : Nat) (items : UserItems)
    (passkey : String) (s : AttemptState)
    (h : scanUserItems key (hash_passkey passkey) items = RetrieveOutcome.decryptFailed) :
    retrieveSubmit key items passkey s = s ∧
    (retrieveSubmit key items passkey s).attempts = s.attempts := by
  constructor
  · simp [retrieveSubmit, h, retrieveStep]
  · simp [retrieveSubmit, h, retrieveStep]

/-- C4 witness: an item whose `passkey_hash` matches passkey `"a"` but whose
ciphertext is malformed leaves the state `{attempts := 1, locked := false}`
untouched. -/
theorem match_decrypt_failed_no_increment_witness :
    retrieveSubmit 0 [("data_1", ⟨CipherText.malformed "x", hash_passkey "a"⟩)] "a"
        ⟨1, false⟩ = ⟨1, false⟩ ∧
    (retrieveSubmit 0 [("data_1", ⟨CipherText.malformed "x", hash_passkey "a"⟩)] "a"
        ⟨1, false⟩).attempts = (⟨1, false⟩ : AttemptState).attempts :=
  match_decrypt_failed_no_increment 0
    [("data_1", ⟨CipherText.malformed "x", hash_passkey "a"⟩)] "a" ⟨1, false⟩ (by decide)

/-- C5: the per-user attempt-state invariant: (a) after a no-match
submission from an unlocked state, `locked` is true exactly when the new
count has reached `MAX_ATTEMPTS = 3`; (b) login resets any state to
`{0, false}`; (c) a successful retrieval from an unlocked state resets to
`{0, false}`; (d) navigating away from the retrieval page while not locked
resets the count only, leaving `locked` unchanged. -/
theorem attempt_state_invariant :
    (∀ s : AttemptState, s.locked = false →
      ((retrieveStep s RetrieveOutcome.noMatch).locked = true ↔
        MAX_ATTEMPTS ≤ (retrieveStep s RetrieveOutcome.noMatch).attempts)) ∧
    (∀ os : Option AttemptState, loginReset os = ⟨0, false⟩) ∧
    (∀ (s : AttemptState) (t : String), s.locked = false →
      retrieveStep s (RetrieveOutcome.decrypted t) = ⟨0, false⟩) ∧
    (∀ (page : String) (s : AttemptState), page ≠ "Retrieve" → s.locked = false →
      (navigate_to page s).attempts = 0 ∧ (navigate_to page s).locked = s.locked) := by
  refine ⟨?_, ?_, ?_, ?_⟩
  · intro s hs
    simp only [retrieveStep, hs]
    by_cases h : MAX_ATTEMPTS ≤ s.attempts + 1 <;> simp [h]
  · intro os
    cases os with
    | none => rfl
    | some s => rfl
  · intro s t hs
    cases s
    simp_all [retrieveStep]
  · intro page s hp _
    simp [navigate_to, hp]

/-- C5 witness: instantiated at `{2, false}`, login from `{3, true}`,
success from `{2, false}`, and navigation to `"Home"` from `{2, false}`. -/
theorem attempt_state_invariant_witness :
    ((retrieveStep ⟨2, false⟩ RetrieveOutcome.noMatch).locked = true ↔
      MAX_ATTEMPTS ≤ (retrieveStep ⟨2, false⟩ RetrieveOutcome.noMatch).attempts) ∧
    loginReset (some ⟨3, true⟩) = ⟨0, false⟩ ∧
    retrieveStep ⟨2, false⟩ (RetrieveOutcome.decrypted "hi") = ⟨0, false⟩ ∧
    (navigate_to "Home" ⟨2, false⟩).attempts = 0 ∧
    (navigate_to "Home" ⟨2, false⟩).locked = (⟨2, false⟩ : AttemptState).locked :=
  ⟨attempt_state_invariant.1 ⟨2, false⟩ rfl,
   attempt_state_invariant.2.1 (some ⟨3, true⟩),
   attempt_state_invariant.2.2.1 ⟨2, false⟩ "hi" rfl,
   attempt_state_invariant.2.2.2 "Home" ⟨2, false⟩ (by decide) rfl⟩

/-- C6: the retrieval scan returns the plaintext of the first stored item,
in insertion order, whose `passkey_hash` equals the hash of the supplied
passkey: if every earlier item's hash differs and the first matching item
decrypts to `t`, the outcome is `decrypted t`, regardless of what follows —
including later items that share the same hash. -/
theorem retrieve_first_match (key : Nat) (pre post : UserItems)
    (did : String) (item : StoredItem) (pk t : String)
    (hpre : ∀ x ∈ pre, x.2.passkey_hash ≠ hash_passkey pk)
    (hmatch : item.passkey_hash = hash_passkey pk)
    (hdec : decrypt_data key item.encrypted_text = some t) :
    scanUserItems key (hash_passkey pk) (pre ++ (did, item) :: post) =
      RetrieveOutcome.decrypted t := by
  induction pre with
  | nil => simp [scanUserItems, hmatch, hdec]
  | cons hd tl ih =>
    obtain ⟨did', item'⟩ := hd
    have hne : item'.passkey_hash ≠ hash_passkey pk := hpre ⟨did', item'⟩ (by simp)
    simp only [List.cons_append, scanUserItems, hne, if_neg hne]
    exact ih fun x hx => hpre x (List.mem_cons_of_mem _ hx)

/-- C6 witness: two items under distinct passkeys `"a"` and `"b"`;
retrieving with `"b"` returns only the second item's plaintext. -/
theorem retrieve_first_match_witness :
    scanUserItems 0 (hash_passkey "b")
      ([("data_1", ⟨CipherText.token 0 0 "first", hash_passkey "a"⟩)] ++
        ("data_2", (⟨CipherText.token 0 1 "second", hash_passkey "b"⟩ : StoredItem)) :: []) =
      RetrieveOutcome.decrypted "second" :=
  retrieve_first_match 0 [("data_1", ⟨CipherText.token 0 0 "first", hash_passkey "a"⟩)] []
    "data_2" ⟨CipherText.token 0 1 "second", hash_passkey "b"⟩ "b" "second"
    (by decide) rfl rfl

/-- C7: key loading is idempotent: whatever the key file held, a second
`load_key` call returns exactly the key and key-file contents produced by
the first; on first call with no persisted key it generates, persists and
returns the fresh key; with a persisted key it returns it unchanged. -/
theorem load_key_idempotent (fresh1 fresh2 : Nat) (keyFile : Option Nat) :
    load_key fresh2 (load_key fresh1 keyFile).2 = load_key fresh1 keyFile ∧
    load_key fresh1 none = (fresh1, some fresh1) ∧
    (∀ k, load_key fresh1 (some k) = (k, some k)) := by
  refine ⟨?_, rfl, fun k => rfl⟩
  cases keyFile with
  | none => rfl
  | some k => rfl

/-- C8: `load_data` is a total function (the `try/except` around `json.loads`
keeps every failure inside): an absent file, an empty file and a malformed
file all yield the empty vault, with the warning flag raised exactly in the
malformed case; a readable file yields its contents without warning. -/
theorem load_data_no_raise :
    load_data DataFileState.absent = ([], false) ∧
    load_data DataFileState.empty = ([], false) ∧
    load_data DataFileState.malformed = ([], true) ∧
    (∀ v, load_data (DataFileState.readable v) = (v, false)) :=
  ⟨rfl, rfl, rfl, fun _ => rfl⟩

/-- C9: `hash_passkey` is deterministic (equal inputs give equal digests)
and its output always has the fixed length 64 (the hex digest of SHA-256);
it is a total function on strings, with no error conditions. -/
theorem hash_passkey_deterministic_fixed_length (p q : String) :
    (p = q → hash_passkey p = hash_passkey q) ∧ (hash_passkey p).length = 64 := by
  constructor
  · intro h
    rw [h]
  · show (String.mk (hexChars 64 (hashNat p))).length = 64
    simp [String.length, hexChars_length]

/-- C9 witness: at passkey `"abc123"`: determinism and the 64-character
digest length. -/
theorem hash_passkey_deterministic_fixed_length_witness :
    hash_passkey "abc123" = hash_passkey "abc123" ∧ (hash_passkey "abc123").length = 64 :=
  ⟨(hash_passkey_deterministic_fixed_length "abc123" "abc123").1 rfl,
   (hash_passkey_deterministic_fixed_length "abc123" "abc123").2⟩

/-- C10: storing with non-empty text and passkey mutates only the given
user's collection, appending exactly one new record under the id
`"data_" + str(count + 1)` (provided that id is fresh, as it is for the
ids the app itself assigns) and leaving every previously stored item of the
user and every other user's collection unchanged; with empty text or empty
passkey the vault is left entirely unchanged. -/
theorem render_store_frame :
    (∀ (key nonce : Nat) (vault : Vault) (user text pk : String),
      text ≠ "" → pk ≠ "" →
      ("data_" ++ toString (((dictGet user vault).getD []).length + 1)) ∉
        ((dictGet user vault).getD []).map Prod.fst →
      dictGet user (render_store key nonce vault user text pk) =
        some ((dictGet user vault).getD [] ++
          [("data_" ++ toString (((dictGet user vault).getD []).length + 1),
            { encrypted_text := encrypt_data key nonce text,
              passkey_hash := hash_passkey pk })]) ∧
      (∀ u, u ≠ user →
        dictGet u (render_store key nonce vault user text pk) = dictGet u vault)) ∧
    (∀ (key nonce : Nat) (vault : Vault) (user text pk : String),
      text = "" ∨ pk = "" → render_store key nonce vault user text pk = vault) := by
  constructor
  · intro key nonce vault user text pk htext hpk hfresh
    constructor
    · rw [render_store_eq key nonce vault user text pk htext hpk,
        dictGet_insert_self, dictInsert_fresh _ _ _ hfresh]
    · intro u hu
      rw [render_store_eq key nonce vault user text pk htext hpk,
        dictGet_insert_other u user _ hu]
  · intro key nonce vault user text pk h
    rw [render_store, if_neg]
    rcases h with h | h
    · exact fun hc => hc.1 h
    · exact fun hc => hc.2 h

/-- C10 witness: a vault holding one item each for `"alice"` and `"bob"`:
storing for `"alice"` appends `"data_2"` to her collection, leaves `"bob"`
unchanged, and storing with empty text changes nothing. -/
theorem render_store_frame_witness :
    dictGet "alice" (render_store 0 0 sampleVault "alice" "hello" "abc123") =
      some ((dictGet "alice" sampleVault).getD [] ++
        [("data_" ++ toString (((dictGet "alice" sampleVault).getD []).length + 1),
          { encrypted_text := encrypt_data 0 0 "hello",
            passkey_hash := hash_passkey "abc123" })]) ∧
    dictGet "bob" (render_store 0 0 sampleVault "alice" "hello" "abc123") =
      dictGet "bob" sampleVault ∧
    render_store 0 0 sampleVault "alice" "" "abc123" = sampleVault :=
  ⟨(render_store_frame.1 0 0 sampleVault "alice" "hello" "abc123"
      (by decide) (by decide) (by decide)).1,
   (render_store_frame.1 0 0 sampleVault "alice" "hello" "abc123"
      (by decide) (by decide) (by decide)).2 "bob" (by decide),
   render_store_frame.2 0 0 sampleVault "alice" "" "abc123" (Or.inl rfl)⟩

end SDES
